import Mathlib

/-!
Shallow embedding of the LunarClaude lunar-lander core
(src/lander.rs, src/terrain.rs, src/particles.rs) over exact real
arithmetic, together with theorems settling the specification claims.

Machine `f32` values are modelled as real numbers.  Rust-specific
primitive semantics (`clamp`, the `%` operator on floats, which is a
truncated remainder) are modelled explicitly by `rustClamp` and
`rustRem`.  Ambient randomness (`rand::thread_rng`) is modelled by
passing the drawn values in as explicit arguments.
-/

namespace LunarClaude

/- Constants from src/lander.rs lines 7-11. -/

noncomputable def GRAVITY : ℝ := 1.62

noncomputable def THRUST_POWER : ℝ := 3.5

noncomputable def MAX_SAFE_LANDING_VELOCITY : ℝ := 2.0

noncomputable def MAX_SAFE_LANDING_ANGLE : ℝ := 0.15

noncomputable def DT : ℝ := 1 / 60

/-- A 2D point or vector with coordinates in `α` (models both
`ggez::mint::Point2<f32>` and `glam::Vec2`). -/
structure Point2 (α : Type) where
  x : α
  y : α
deriving DecidableEq

/-- Length of a 2D vector (`glam::Vec2::length`). -/
noncomputable def Point2.length (v : Point2 ℝ) : ℝ :=
  Real.sqrt (v.x ^ 2 + v.y ^ 2)

/-- Rust `f32::clamp(lo, hi)`: if below `lo` return `lo`, if above `hi`
return `hi`, otherwise the value itself. -/
noncomputable def rustClamp (v lo hi : ℝ) : ℝ :=
  if v < lo then lo else if v > hi then hi else v

/-- Truncation toward zero, as used by Rust float-to-int truncation and
by the float remainder operator. -/
noncomputable def rustTrunc (q : ℝ) : ℤ :=
  if 0 ≤ q then ⌊q⌋ else ⌈q⌉

/-- Rust `%` on floats: `x % m = x - m * trunc (x / m)` (the result has
the sign of `x`, not of `m`). -/
noncomputable def rustRem (x m : ℝ) : ℝ :=
  x - m * (rustTrunc (x / m) : ℝ)

/-- The lander state (`LunarLander` struct, src/lander.rs lines 13-21). -/
structure LunarLander where
  position : Point2 ℝ
  velocity : Point2 ℝ
  angle : ℝ
  thrust : ℝ
  fuel : ℝ
  landing_safety_checked : Bool
  landed_safely : Bool

/-- Constructor `LunarLander::new` (src/lander.rs lines 24-34). -/
noncomputable def LunarLander.new (x y : ℝ) : LunarLander where
  position := ⟨x, y⟩
  velocity := ⟨0, 0⟩
  angle := 0
  thrust := 0
  fuel := 100
  landing_safety_checked := false
  landed_safely := false

/-- One simulation tick, `LunarLander::update` (src/lander.rs lines
36-61): optional thrust integration and fuel drain, gravity, position
integration (screen y is inverted), and clamping of `position.x` to
`[0, 800]`. -/
noncomputable def LunarLander.update (l : LunarLander) : LunarLander :=
  let l1 :=
    if 0 < l.fuel ∧ 0 < l.thrust then
      { l with
        velocity := ⟨l.velocity.x + (-l.thrust * Real.cos l.angle * THRUST_POWER) * DT,
                     l.velocity.y + (l.thrust * Real.sin l.angle * THRUST_POWER) * DT⟩
        fuel := l.fuel - l.thrust * 0.5 }
    else l
  let l2 := { l1 with velocity := ⟨l1.velocity.x, l1.velocity.y - GRAVITY * DT⟩ }
  let l3 := { l2 with position := ⟨l2.position.x + l2.velocity.x * DT,
                                   l2.position.y - l2.velocity.y * DT⟩ }
  { l3 with position := ⟨rustClamp l3.position.x 0 800, l3.position.y⟩ }

/-- Player thrust input, `LunarLander::apply_thrust` (src/lander.rs
lines 158-166): the requested amount is clamped into `[0, 1]` while
fuel remains, and forced to `0` once fuel is exhausted. -/
noncomputable def LunarLander.applyThrust (l : LunarLander) (amount : ℝ) : LunarLander :=
  if 0 < l.fuel then { l with thrust := rustClamp amount 0 1 }
  else { l with thrust := 0 }

/-- Player rotation input, `LunarLander::rotate` (src/lander.rs lines
168-170): add the delta and reduce with the float `%` operator. -/
noncomputable def LunarLander.rotate (l : LunarLander) (amount : ℝ) : LunarLander :=
  { l with angle := rustRem (l.angle + amount) (2 * Real.pi) }

/-- Landing verdict, `LunarLander::check_landing_safety` (src/lander.rs
lines 172-181): computed only on the first invocation. -/
noncomputable def LunarLander.checkLandingSafety (l : LunarLander) (surfaceAngle : ℝ) :
    LunarLander :=
  if l.landing_safety_checked = true then l
  else
    { l with
      landed_safely := decide (l.velocity.length ≤ MAX_SAFE_LANDING_VELOCITY ∧
        |l.angle - surfaceAngle| ≤ MAX_SAFE_LANDING_ANGLE)
      landing_safety_checked := true }

/-- Leg contact points, `LunarLander::get_legs_points` (src/lander.rs
lines 142-156). -/
noncomputable def LunarLander.legsPoints (l : LunarLander) : List (Point2 ℝ) :=
  [⟨l.position.x + (-15 * Real.cos l.angle - -5 * Real.sin l.angle),
    l.position.y + (-15 * Real.sin l.angle + -5 * Real.cos l.angle)⟩,
   ⟨l.position.x + (15 * Real.cos l.angle - -5 * Real.sin l.angle),
    l.position.y + (15 * Real.sin l.angle + -5 * Real.cos l.angle)⟩]

/-- Lander states reachable from the game's initial state
(`LunarLander::new(400.0, 100.0)`, src/game.rs line 27) by any
interleaving of simulation ticks, player inputs, and landing-safety
checks triggered by collisions. -/
inductive Reachable : LunarLander → Prop
  | init : Reachable (LunarLander.new 400 100)
  | tick {l : LunarLander} : Reachable l → Reachable l.update
  | thrustInput {l : LunarLander} (amount : ℝ) :
      Reachable l → Reachable (l.applyThrust amount)
  | rotateInput {l : LunarLander} (amount : ℝ) :
      Reachable l → Reachable (l.rotate amount)
  | safetyCheck {l : LunarLander} (surfaceAngle : ℝ) :
      Reachable l → Reachable (l.checkLandingSafety surfaceAngle)

/-- A terrain point (`TerrainPoint` struct, src/terrain.rs lines 13-16),
generic in the scalar type so that concrete instances can be computed
over `ℚ` while the collision logic works over `ℝ`. -/
structure TerrainPoint (α : Type) where
  position : Point2 α
  is_landing_pad : Bool
deriving DecidableEq

/-- The pad width, a literal `5` in src/terrain.rs line 38. -/
def padWidth : ℕ := 5

/-- Default terrain point used to model Rust's panicking indexing
(indices are always in range along executed paths, so the default is
never read by the program). -/
def padDefault {α : Type} [Zero α] : TerrainPoint α := ⟨⟨0, 0⟩, false⟩

/-- One iteration of the pad-flattening loop in `generate_terrain`
(src/terrain.rs lines 36-45): read the current height at `padStart`,
then overwrite the next `padWidth` points with that height and mark
them as landing pad. -/
def applyPad {α : Type} [Field α] (pts : List (TerrainPoint α)) (padStart : ℕ) :
    List (TerrainPoint α) :=
  let padHeight := (pts.getD padStart padDefault).position.y
  pts.mapIdx fun i p =>
    if padStart ≤ i ∧ i < padStart + padWidth then ⟨⟨p.position.x, padHeight⟩, true⟩ else p

/-- Terrain generation, `generate_terrain` (src/terrain.rs lines 18-51),
with the ambient randomness made explicit: `heights` are the values
drawn by `rng.gen_range(400.0..500.0)` for each of the points and
`padStarts` the indices drawn by `rng.gen_range(5..90)` for the pads.
The x-spacing is `800 / (num_points - 1)` with `num_points = 100`. -/
def generateTerrain {α : Type} [Field α] (heights : List α) (padStarts : List ℕ) :
    List (TerrainPoint α) :=
  let base := heights.mapIdx fun i y =>
    (⟨⟨(i : α) * (800 / 99), y⟩, false⟩ : TerrainPoint α)
  padStarts.foldl applyPad base

/-- Segment membership test, `point_in_segment` (src/terrain.rs lines
115-124): the point's x must be within the segment's x-range and its y
at or below (screen-wise: numerically at or above) the linearly
interpolated terrain height. -/
noncomputable def pointInSegment (point p1 p2 : Point2 ℝ) : Bool :=
  if point.x < min p1.x p2.x ∨ point.x > max p1.x p2.x then false
  else
    let t := (point.x - p1.x) / (p2.x - p1.x)
    let interpolated_y := p1.y + t * (p2.y - p1.y)
    decide (point.y ≥ interpolated_y)

/-- Surface angle of the terrain segment from `p1` to `p2`
(src/terrain.rs lines 102-104). -/
noncomputable def segmentSurfaceAngle (p1 p2 : Point2 ℝ) : ℝ :=
  Real.arctan ((p2.y - p1.y) / (p2.x - p1.x))

/-- Index of the first terrain segment hit by a leg, scanning legs in
order and, for each leg, segments in ascending index order, as the
nested loops of `Terrain::check_collision` do (src/terrain.rs lines
95-110). -/
noncomputable def firstHitSegment (pts : List (TerrainPoint ℝ)) (l : LunarLander) :
    Option ℕ :=
  l.legsPoints.findSome? fun leg =>
    (List.range (pts.length - 1)).find? fun i =>
      pointInSegment leg (pts.getD i padDefault).position (pts.getD (i + 1) padDefault).position

/-- Collision check, `Terrain::check_collision` (src/terrain.rs lines
92-112), returning the Rust boolean result together with the lander
state after the call (the call mutates the lander only when a collision
is found, through `check_landing_safety`). -/
noncomputable def checkCollision (pts : List (TerrainPoint ℝ)) (l : LunarLander) :
    Bool × LunarLander :=
  match firstHitSegment pts l with
  | some i =>
      (true, l.checkLandingSafety
        (segmentSurfaceAngle (pts.getD i padDefault).position (pts.getD (i + 1) padDefault).position))
  | none => (false, l)

/-- A particle (`Particle` struct, src/particles.rs lines 7-12). -/
structure Particle where
  position : Point2 ℝ
  velocity : Point2 ℝ
  lifetime : ℝ
  initial_lifetime : ℝ

/-- Particle constructor, `Particle::new` (src/particles.rs lines
14-30), with the three random draws (`angle ∈ [0, 2π)`,
`speed ∈ [50, 200)`, `lifetime ∈ [0.5, 1.5)`) passed explicitly. -/
noncomputable def Particle.new (x y angle speed lifetime : ℝ) : Particle where
  position := ⟨x, y⟩
  velocity := ⟨speed * Real.cos angle, speed * Real.sin angle⟩
  lifetime := lifetime
  initial_lifetime := lifetime

/-- Per-tick particle step, `Particle::update` (src/particles.rs lines
32-40): ballistic position update, lifetime decrement, and an unscaled
downward velocity delta. -/
noncomputable def Particle.step (p : Particle) : Particle :=
  { p with
    position := ⟨p.position.x + p.velocity.x * DT, p.position.y + p.velocity.y * DT⟩
    lifetime := p.lifetime - DT
    velocity := ⟨p.velocity.x, p.velocity.y - 1⟩ }

/-- Liveness test, `Particle::is_alive` (src/particles.rs lines 42-44). -/
noncomputable def Particle.isAlive (p : Particle) : Bool :=
  decide (p.lifetime > 0)

/-- An explosion (`Explosion` struct, src/particles.rs lines 47-50). -/
structure Explosion where
  particles : List Particle
  notified_finished : Bool

/-- Whether all particles are gone, `Explosion::is_finished`
(src/particles.rs lines 98-100). -/
def Explosion.isFinished (e : Explosion) : Bool :=
  e.particles.isEmpty

/-- Explosion constructor, `Explosion::new` (src/particles.rs lines
52-63): one particle per random draw; the loop runs 100 times so the
program always calls this with a list of 100 draws. Each draw is a
triple (angle, speed, lifetime). -/
noncomputable def Explosion.new (x y : ℝ) (draws : List (ℝ × ℝ × ℝ)) : Explosion where
  particles := draws.map fun d => Particle.new x y d.1 d.2.1 d.2.2
  notified_finished := false

/-- Per-tick explosion step, `Explosion::update` (src/particles.rs
lines 65-75): set the notification flag when finished, advance every
particle, then drop the dead ones. -/
noncomputable def Explosion.step (e : Explosion) : Explosion where
  particles := (e.particles.map Particle.step).filter Particle.isAlive
  notified_finished :=
    if e.isFinished && !e.notified_finished then true else e.notified_finished

/-! Projection lemmas describing how each operation acts on the
individual fields of the lander state. -/

theorem update_fuel (l : LunarLander) :
    l.update.fuel = if 0 < l.fuel ∧ 0 < l.thrust then l.fuel - l.thrust * 0.5 else l.fuel := by
  unfold LunarLander.update
  split <;> rfl

theorem update_thrust (l : LunarLander) : l.update.thrust = l.thrust := by
  unfold LunarLander.update
  split <;> rfl

theorem applyThrust_fuel (l : LunarLander) (a : ℝ) : (l.applyThrust a).fuel = l.fuel := by
  unfold LunarLander.applyThrust
  split <;> rfl

theorem applyThrust_thrust (l : LunarLander) (a : ℝ) :
    (l.applyThrust a).thrust = if 0 < l.fuel then rustClamp a 0 1 else 0 := by
  unfold LunarLander.applyThrust
  split <;> rfl

theorem rotate_fuel (l : LunarLander) (a : ℝ) : (l.rotate a).fuel = l.fuel := rfl

theorem rotate_thrust (l : LunarLander) (a : ℝ) : (l.rotate a).thrust = l.thrust := rfl

theorem checkLandingSafety_fuel (l : LunarLander) (σ : ℝ) :
    (l.checkLandingSafety σ).fuel = l.fuel := by
  unfold LunarLander.checkLandingSafety
  split <;> rfl

theorem checkLandingSafety_thrust (l : LunarLander) (σ : ℝ) :
    (l.checkLandingSafety σ).thrust = l.thrust := by
  unfold LunarLander.checkLandingSafety
  split <;> rfl

/-! Basic facts about the Rust primitives. -/

theorem rustClamp_mem (v : ℝ) {lo hi : ℝ} (h : lo ≤ hi) :
    lo ≤ rustClamp v lo hi ∧ rustClamp v lo hi ≤ hi := by
  unfold rustClamp
  split_ifs with h1 h2 <;> constructor <;> linarith

theorem rustClamp_of_lt {v lo : ℝ} (hi : ℝ) (h : v < lo) : rustClamp v lo hi = lo := by
  unfold rustClamp
  rw [if_pos h]

theorem rustClamp_of_gt {v lo hi : ℝ} (h1 : lo ≤ hi) (h2 : hi < v) :
    rustClamp v lo hi = hi := by
  unfold rustClamp
  rw [if_neg (by linarith), if_pos h2]

theorem rustRem_of_nonneg {x m : ℝ} (hm : 0 < m) (hx : 0 ≤ x) :
    0 ≤ rustRem x m ∧ rustRem x m < m := by
  unfold rustRem rustTrunc
  rw [if_pos (div_nonneg hx hm.le)]
  have hfr : x - m * (⌊x / m⌋ : ℝ) = m * Int.fract (x / m) := by
    rw [Int.fract]
    field_simp
  rw [hfr]
  constructor
  · exact mul_nonneg hm.le (Int.fract_nonneg _)
  · calc m * Int.fract (x / m) < m * 1 := by
          exact (mul_lt_mul_left hm).mpr (Int.fract_lt_one _)
    _ = m := mul_one m

theorem rustRem_of_neg {x m : ℝ} (hm : 0 < m) (hx : x < 0) :
    -m < rustRem x m ∧ rustRem x m ≤ 0 := by
  unfold rustRem rustTrunc
  rw [if_neg (not_le.mpr (div_neg_of_neg_of_pos hx hm))]
  have hle : x / m ≤ (⌈x / m⌉ : ℝ) := Int.le_ceil _
  have hlt : (⌈x / m⌉ : ℝ) < x / m + 1 := Int.ceil_lt_add_one _
  constructor
  · have : x / m - (⌈x / m⌉ : ℝ) > -1 := by linarith
    have h2 : m * (x / m - (⌈x / m⌉ : ℝ)) > m * (-1) := (mul_lt_mul_left hm).mpr this
    have h3 : m * (x / m - (⌈x / m⌉ : ℝ)) = x - m * (⌈x / m⌉ : ℝ) := by
      field_simp
    linarith [h2, h3.symm.le]
  · have : x / m - (⌈x / m⌉ : ℝ) ≤ 0 := by linarith
    have h2 : m * (x / m - (⌈x / m⌉ : ℝ)) ≤ m * 0 := by
      exact mul_le_mul_of_nonneg_left this hm.le
    have h3 : m * (x / m - (⌈x / m⌉ : ℝ)) = x - m * (⌈x / m⌉ : ℝ) := by
      field_simp
    linarith

/-! Fuel bookkeeping along a run of consecutive ticks at a constant
positive thrust level. -/

theorem fuel_linear (l : LunarLander) (n : ℕ) (ht : 0 < l.thrust)
    (h : ∀ k : ℕ, k < n → 0 < l.fuel - k * (l.thrust * 0.5)) :
    (LunarLander.update^[n] l).fuel = l.fuel - n * (l.thrust * 0.5) ∧
    (LunarLander.update^[n] l).thrust = l.thrust := by
  induction n with
  | zero => simp
  | succ n ih =>
    have hprev := ih fun k hk => h k (hk.trans (Nat.lt_succ_self n))
    rw [Function.iterate_succ_apply']
    have hpos : 0 < (LunarLander.update^[n] l).fuel := by
      rw [hprev.1]; exact h n (Nat.lt_succ_self n)
    constructor
    · rw [update_fuel, if_pos ⟨hpos, by rw [hprev.2]; exact ht⟩, hprev.1, hprev.2]
      push_cast
      ring
    · rw [update_thrust, hprev.2]

/-- The initial game state after the player requests full thrust. -/
noncomputable def fullThrustStart : LunarLander :=
  (LunarLander.new 400 100).applyThrust 1

theorem fullThrustStart_fuel : fullThrustStart.fuel = 100 := by
  rw [fullThrustStart, applyThrust_fuel]
  rfl

theorem fullThrustStart_thrust : fullThrustStart.thrust = 1 := by
  rw [fullThrustStart, applyThrust_thrust]
  norm_num [LunarLander.new, rustClamp]

/-- The state after `n` consecutive ticks at full thrust from the
initial state. -/
noncomputable def drained (n : ℕ) : LunarLander :=
  LunarLander.update^[n] fullThrustStart

theorem drained_reachable (n : ℕ) : Reachable (drained n) := by
  induction n with
  | zero => exact Reachable.thrustInput 1 Reachable.init
  | succ n ih =>
    rw [drained, Function.iterate_succ_apply']
    exact Reachable.tick ih

theorem drained_fuel {n : ℕ} (h : n ≤ 200) :
    (drained n).fuel = 100 - n * 0.5 ∧ (drained n).thrust = 1 := by
  have key := fuel_linear fullThrustStart n
    (by rw [fullThrustStart_thrust]; norm_num)
    (by
      intro k hk
      rw [fullThrustStart_fuel, fullThrustStart_thrust]
      have hk' : (k : ℝ) ≤ 199 := by
        have : k ≤ 199 := by omega
        exact_mod_cast this
      nlinarith)
  rw [drained, key.1, key.2, fullThrustStart_fuel, fullThrustStart_thrust]
  norm_num

/-- All lander states the game can reach satisfy: thrust stays in
`[0, 1]` and fuel stays strictly above `-0.5`. -/
theorem reachable_bounds {l : LunarLander} (h : Reachable l) :
    0 ≤ l.thrust ∧ l.thrust ≤ 1 ∧ -0.5 < l.fuel := by
  induction h with
  | init => norm_num [LunarLander.new]
  | tick _ ih =>
    obtain ⟨h0, h1, hf⟩ := ih
    refine ⟨by rw [update_thrust]; exact h0, by rw [update_thrust]; exact h1, ?_⟩
    rw [update_fuel]
    split
    · next hc => nlinarith [hc.1, hc.2]
    · exact hf
  | thrustInput a _ ih =>
    obtain ⟨h0, h1, hf⟩ := ih
    rw [applyThrust_thrust, applyThrust_fuel]
    split
    · exact ⟨(rustClamp_mem a (by norm_num)).1, (rustClamp_mem a (by norm_num)).2, hf⟩
    · exact ⟨le_refl 0, by norm_num, hf⟩
  | rotateInput a _ ih => rwa [rotate_thrust, rotate_fuel]
  | safetyCheck σ _ ih => rwa [checkLandingSafety_thrust, checkLandingSafety_fuel]

/-- All states obtainable from `l` by any further interleaving of
ticks, player inputs, and landing-safety checks. -/
inductive StepsFrom : LunarLander → LunarLander → Prop
  | refl (l : LunarLander) : StepsFrom l l
  | tick {l l' : LunarLander} : StepsFrom l l' → StepsFrom l l'.update
  | thrustInput {l l' : LunarLander} (amount : ℝ) :
      StepsFrom l l' → StepsFrom l (l'.applyThrust amount)
  | rotateInput {l l' : LunarLander} (amount : ℝ) :
      StepsFrom l l' → StepsFrom l (l'.rotate amount)
  | safetyCheck {l l' : LunarLander} (surfaceAngle : ℝ) :
      StepsFrom l l' → StepsFrom l (l'.checkLandingSafety surfaceAngle)

/-- C1 (amended): fuel never increases across a tick, and no player
input (thrust request, rotation) nor a landing-safety check changes
the fuel; the original claim's clamp-at-0 part is refuted by
`fuel_negative_counterexample`. -/
theorem fuel_never_increases (l : LunarLander) (a d σ : ℝ) :
    l.update.fuel ≤ l.fuel ∧ (l.applyThrust a).fuel = l.fuel ∧
    (l.rotate d).fuel = l.fuel ∧ (l.checkLandingSafety σ).fuel = l.fuel := by
  refine ⟨?_, applyThrust_fuel l a, rotate_fuel l d, checkLandingSafety_fuel l σ⟩
  rw [update_fuel]
  split
  · next hc => nlinarith [hc.2]
  · exact le_refl _

/-- A reachable state with strictly negative fuel: request full thrust,
tick 199 times (fuel 0.5), request thrust 0.8, and tick twice
(fuel 0.1, then -0.3). -/
noncomputable def negativeFuelState : LunarLander :=
  ((drained 199).applyThrust 0.8).update.update

/-- C1 counterexample: the game can reach a state whose fuel is
strictly negative, so fuel does not clamp at exactly 0. -/
theorem fuel_negative_counterexample :
    Reachable negativeFuelState ∧ negativeFuelState.fuel < 0 := by
  have h199 := drained_fuel (show 199 ≤ 200 by norm_num)
  have hf : ((drained 199).applyThrust 0.8).fuel = 0.5 := by
    rw [applyThrust_fuel, h199.1]
    norm_num
  have hth : ((drained 199).applyThrust 0.8).thrust = 0.8 := by
    rw [applyThrust_thrust, if_pos (by rw [h199.1]; norm_num)]
    norm_num [rustClamp]
  have h1f : ((drained 199).applyThrust 0.8).update.fuel = 0.1 := by
    rw [update_fuel, if_pos ⟨by rw [hf]; norm_num, by rw [hth]; norm_num⟩, hf, hth]
    norm_num
  have h1t : ((drained 199).applyThrust 0.8).update.thrust = 0.8 := by
    rw [update_thrust, hth]
  have h2f : negativeFuelState.fuel = -(0.3 : ℝ) := by
    rw [negativeFuelState, update_fuel,
      if_pos ⟨by rw [h1f]; norm_num, by rw [h1t]; norm_num⟩, h1f, h1t]
    norm_num
  constructor
  · exact Reachable.tick (Reachable.tick (Reachable.thrustInput 0.8 (drained_reachable 199)))
  · rw [h2f]
    norm_num

/-- C3 (amended): whenever fuel is exhausted at the time of an
`apply_thrust` call, the stored thrust level is forced to exactly 0,
and a tick from an exhausted state burns no fuel and adds no thrust
acceleration (gravity only); but a stale nonzero thrust value set
before exhaustion can persist in the state, see
`stale_thrust_counterexample`. -/
theorem thrust_zeroed_on_exhausted (l : LunarLander) (a : ℝ) (h : l.fuel ≤ 0) :
    (l.applyThrust a).thrust = 0 ∧
    l.update.fuel = l.fuel ∧
    l.update.velocity = ⟨l.velocity.x, l.velocity.y - GRAVITY * DT⟩ := by
  have hng : ¬(0 < l.fuel ∧ 0 < l.thrust) := fun hc => absurd hc.1 (not_lt.mpr h)
  refine ⟨?_, ?_, ?_⟩
  · rw [applyThrust_thrust, if_neg (not_lt.mpr h)]
  · rw [update_fuel, if_neg hng]
  · simp only [LunarLander.update]
    rw [if_neg hng]

/-- A state with exhausted fuel but a stale thrust setting. -/
noncomputable def exhaustedState : LunarLander :=
  { LunarLander.new 400 100 with fuel := 0, thrust := 1 }

/-- Witness for `thrust_zeroed_on_exhausted` at a concrete exhausted
state and thrust request 7. -/
theorem thrust_zeroed_on_exhausted_witness :
    (exhaustedState.applyThrust 7).thrust = 0 ∧
    exhaustedState.update.fuel = exhaustedState.fuel ∧
    exhaustedState.update.velocity =
      ⟨exhaustedState.velocity.x, exhaustedState.velocity.y - GRAVITY * DT⟩ :=
  thrust_zeroed_on_exhausted exhaustedState 7 (by norm_num [exhaustedState])

/-- C3 counterexample: after 200 full-thrust ticks the reachable state
has fuel exactly 0 while the stored thrust level is still 1, because
`update` never resets the thrust field when fuel runs out. -/
theorem stale_thrust_counterexample :
    Reachable (drained 200) ∧ (drained 200).fuel = 0 ∧ (drained 200).thrust ≠ 0 := by
  have h := drained_fuel (le_refl 200)
  refine ⟨drained_reachable 200, by rw [h.1]; norm_num, by rw [h.2]; norm_num⟩

/-- C10: every reachable lander state has fuel strictly greater than
-0.5, and once fuel is at or below 0 no further sequence of ticks,
thrust requests, rotations, or safety checks ever changes the fuel
value again. -/
theorem fuel_floor_and_freeze {l : LunarLander} (h : Reachable l) :
    -0.5 < l.fuel ∧
    (l.fuel ≤ 0 → ∀ l' : LunarLander, StepsFrom l l' → l'.fuel = l.fuel) := by
  refine ⟨(reachable_bounds h).2.2, ?_⟩
  intro hf l' hsteps
  induction hsteps with
  | refl => rfl
  | tick _ ih =>
    next lmid _ =>
      have hle : ¬(0 < lmid.fuel ∧ 0 < lmid.thrust) :=
        fun hc => absurd hc.1 (not_lt.mpr (by rw [ih]; exact hf))
      rw [update_fuel, if_neg hle, ih]
  | thrustInput a _ ih => rw [applyThrust_fuel, ih]
  | rotateInput a _ ih => rw [rotate_fuel, ih]
  | safetyCheck σ _ ih => rw [checkLandingSafety_fuel, ih]

/-- Witness for `fuel_floor_and_freeze` at the initial state. -/
theorem fuel_floor_and_freeze_witness :
    -0.5 < (LunarLander.new 400 100).fuel ∧
    ((LunarLander.new 400 100).fuel ≤ 0 →
      ∀ l' : LunarLander, StepsFrom (LunarLander.new 400 100) l' →
        l'.fuel = (LunarLander.new 400 100).fuel) :=
  fuel_floor_and_freeze Reachable.init

/-- C2 (amended): for every prior angle in [0, 2π) and every real
delta, the angle after `rotate(d)` lies in the open interval
(-2π, 2π); it is nonnegative (hence in [0, 2π)) whenever the
accumulated angle `angle + d` is nonnegative, and it is at most 0 when
`angle + d` is negative — in that case it can be strictly negative,
because the Rust float `%` operator keeps the sign of its left operand
(see `rotate_negative_counterexample`). -/
theorem rotate_angle_range (l : LunarLander) (d : ℝ)
    (h0 : 0 ≤ l.angle) (h2 : l.angle < 2 * Real.pi) :
    -(2 * Real.pi) < (l.rotate d).angle ∧ (l.rotate d).angle < 2 * Real.pi ∧
    (0 ≤ l.angle + d → 0 ≤ (l.rotate d).angle) ∧
    (l.angle + d < 0 → (l.rotate d).angle ≤ 0) := by
  have hm : 0 < 2 * Real.pi := by positivity
  have heq : (l.rotate d).angle = rustRem (l.angle + d) (2 * Real.pi) := rfl
  rw [heq]
  rcases le_or_lt 0 (l.angle + d) with hx | hx
  · obtain ⟨ha, hb⟩ := rustRem_of_nonneg hm hx
    exact ⟨by linarith, hb, fun _ => ha, fun hc => absurd hx (not_le.mpr hc)⟩
  · obtain ⟨ha, hb⟩ := rustRem_of_neg hm hx
    exact ⟨ha, by linarith, fun hc => absurd hc (not_le.mpr hx), fun _ => hb⟩

/-- Witness for `rotate_angle_range` at the initial state (angle 0) and
delta 1. -/
theorem rotate_angle_range_witness :
    -(2 * Real.pi) < ((LunarLander.new 400 100).rotate 1).angle ∧
    ((LunarLander.new 400 100).rotate 1).angle < 2 * Real.pi ∧
    (0 ≤ (LunarLander.new 400 100).angle + 1 →
      0 ≤ ((LunarLander.new 400 100).rotate 1).angle) ∧
    ((LunarLander.new 400 100).angle + 1 < 0 →
      ((LunarLander.new 400 100).rotate 1).angle ≤ 0) :=
  rotate_angle_range (LunarLander.new 400 100) 1
    (by norm_num [LunarLander.new])
    (by simp only [LunarLander.new]; positivity)

/-- C2 counterexample: rotating by -1 from the initial angle 0 leaves
the angle at exactly -1, which is outside [0, 2π). -/
theorem rotate_negative_counterexample :
    ((LunarLander.new 400 100).rotate (-1)).angle = -1 ∧
    ¬(0 ≤ ((LunarLander.new 400 100).rotate (-1)).angle) := by
  have hq : ((0 : ℝ) + -1) / (2 * Real.pi) < 0 :=
    div_neg_of_neg_of_pos (by norm_num) (by positivity)
  have hlt : (-1 : ℝ) < ((0 : ℝ) + -1) / (2 * Real.pi) := by
    rw [lt_div_iff₀ (by positivity)]
    nlinarith [Real.pi_gt_three]
  have hceil : ⌈((0 : ℝ) + -1) / (2 * Real.pi)⌉ = 0 := by
    rw [Int.ceil_eq_zero_iff]
    exact Set.mem_Ioc.mpr ⟨hlt, hq.le⟩
  have h1 : ((LunarLander.new 400 100).rotate (-1)).angle = -1 := by
    show rustRem ((0 : ℝ) + -1) (2 * Real.pi) = -1
    unfold rustRem rustTrunc
    rw [if_neg (not_le.mpr hq), hceil]
    norm_num
  exact ⟨h1, by rw [h1]; norm_num⟩

/-- C4: on the first invocation of the landing-safety check, the
verdict is safe if and only if the velocity magnitude is at most
`MAX_SAFE_LANDING_VELOCITY` (2.0) and the angle differs from the
surface angle by at most `MAX_SAFE_LANDING_ANGLE` (0.15 rad); the
check also marks itself as done. -/
theorem landing_safety_first_check (l : LunarLander) (σ : ℝ)
    (h : l.landing_safety_checked = false) :
    ((l.checkLandingSafety σ).landed_safely = true ↔
      l.velocity.length ≤ MAX_SAFE_LANDING_VELOCITY ∧
      |l.angle - σ| ≤ MAX_SAFE_LANDING_ANGLE) ∧
    (l.checkLandingSafety σ).landing_safety_checked = true := by
  unfold LunarLander.checkLandingSafety
  rw [if_neg (by rw [h]; exact Bool.false_ne_true)]
  exact ⟨⟨of_decide_eq_true, decide_eq_true⟩, rfl⟩

/-- A lander touching down gently (speed 1) on a flat segment with a
small tilt of 0.05 rad. -/
noncomputable def gentleLander : LunarLander :=
  { LunarLander.new 400 100 with velocity := ⟨1, 0⟩, angle := 0.05 }

/-- A lander touching down too fast (speed 5) with the same tilt. -/
noncomputable def fastLander : LunarLander :=
  { LunarLander.new 400 100 with velocity := ⟨5, 0⟩, angle := 0.05 }

/-- Witness for `landing_safety_first_check`: the gentle touchdown on a
flat segment (surface angle 0) is judged safe and the fast one is not. -/
theorem landing_safety_first_check_witness :
    (gentleLander.checkLandingSafety 0).landed_safely = true ∧
    (fastLander.checkLandingSafety 0).landed_safely = false := by
  have hg := landing_safety_first_check gentleLander 0 rfl
  have hf := landing_safety_first_check fastLander 0 rfl
  have hlen1 : gentleLander.velocity.length = 1 := by
    show Point2.length ⟨1, 0⟩ = 1
    unfold Point2.length
    norm_num
  have hlen5 : fastLander.velocity.length = 5 := by
    show Point2.length ⟨5, 0⟩ = 5
    unfold Point2.length
    rw [show ((5 : ℝ) ^ 2 + 0 ^ 2) = 5 ^ 2 by norm_num,
      Real.sqrt_sq (by norm_num : (0 : ℝ) ≤ 5)]
  constructor
  · rw [hg.1, hlen1]
    constructor
    · norm_num [MAX_SAFE_LANDING_VELOCITY]
    · show |(0.05 : ℝ) - 0| ≤ MAX_SAFE_LANDING_ANGLE
      rw [sub_zero, abs_of_nonneg (by norm_num)]
      norm_num [MAX_SAFE_LANDING_ANGLE]
  · have : ¬((fastLander.checkLandingSafety 0).landed_safely = true) := by
      rw [hf.1, hlen5]
      rintro ⟨hv, -⟩
      rw [MAX_SAFE_LANDING_VELOCITY] at hv
      norm_num at hv
    rwa [Bool.not_eq_true] at this

/-- C5: once the landing-safety check has run (`checked = true`), any
further invocation with any surface angle changes neither the safe
flag nor the checked flag. -/
theorem landing_safety_idempotent (l : LunarLander) (σ : ℝ)
    (h : l.landing_safety_checked = true) :
    (l.checkLandingSafety σ).landed_safely = l.landed_safely ∧
    (l.checkLandingSafety σ).landing_safety_checked = l.landing_safety_checked := by
  unfold LunarLander.checkLandingSafety
  rw [if_pos h]
  exact ⟨rfl, rfl⟩

/-- A lander whose landing-safety verdict has already been recorded. -/
noncomputable def checkedLander : LunarLander :=
  { LunarLander.new 400 100 with landing_safety_checked := true, landed_safely := true }

/-- Witness for `landing_safety_idempotent` at a concrete
already-checked state and surface angle 0.7. -/
theorem landing_safety_idempotent_witness :
    (checkedLander.checkLandingSafety 0.7).landed_safely = checkedLander.landed_safely ∧
    (checkedLander.checkLandingSafety 0.7).landing_safety_checked =
      checkedLander.landing_safety_checked :=
  landing_safety_idempotent checkedLander 0.7 rfl

theorem update_position_x (l : LunarLander) :
    l.update.position.x = rustClamp (l.position.x + l.update.velocity.x * DT) 0 800 := by
  unfold LunarLander.update
  split <;> rfl

/-- C9: after every tick the x-position lies in [0, 800]; when the
integration step would drive it below 0 (resp. above 800) the tick
leaves it at exactly 0 (resp. exactly 800). The integrated raw value
is `position.x + v.x * DT` where `v` is the velocity after this tick's
thrust and gravity updates, which is the velocity the code integrates
with. -/
theorem tick_clamps_position_x (l : LunarLander) :
    0 ≤ l.update.position.x ∧ l.update.position.x ≤ 800 ∧
    (l.position.x + l.update.velocity.x * DT < 0 → l.update.position.x = 0) ∧
    (800 < l.position.x + l.update.velocity.x * DT → l.update.position.x = 800) := by
  rw [update_position_x]
  exact ⟨(rustClamp_mem _ (by norm_num)).1, (rustClamp_mem _ (by norm_num)).2,
    fun h => rustClamp_of_lt _ h, fun h => rustClamp_of_gt (by norm_num) h⟩

/-- A lander at the left edge drifting further left at 60 units/s. -/
noncomputable def leftDriftLander : LunarLander :=
  { LunarLander.new 0 300 with velocity := ⟨-60, 0⟩ }

/-- Witness for `tick_clamps_position_x`: from x = 0 with leftward
velocity -60 the raw integrated x is -1, and the tick clamps it to
exactly 0. -/
theorem tick_clamps_position_x_witness :
    leftDriftLander.position.x + leftDriftLander.update.velocity.x * DT < 0 ∧
    leftDriftLander.update.position.x = 0 := by
  have hvx : leftDriftLander.update.velocity.x = -60 := by
    unfold LunarLander.update
    rw [if_neg (by norm_num [leftDriftLander, LunarLander.new])]
    rfl
  have hraw : leftDriftLander.position.x + leftDriftLander.update.velocity.x * DT < 0 := by
    rw [hvx]
    norm_num [leftDriftLander, LunarLander.new, DT]
  exact ⟨hraw, (tick_clamps_position_x leftDriftLander).2.2.1 hraw⟩

/-- C6: `check_collision` returns true exactly when some leg contact
point lies, by `point_in_segment`, within a terrain segment's x-range
at or below its interpolated height; when it returns true the lander
state after the call is the result of invoking the landing-safety
check, and when it returns false the lander state is completely
unchanged. -/
theorem check_collision_iff_and_frame (pts : List (TerrainPoint ℝ)) (l : LunarLander) :
    ((checkCollision pts l).1 = true ↔
      ∃ leg ∈ l.legsPoints, ∃ i : ℕ, i < pts.length - 1 ∧
        pointInSegment leg (pts.getD i padDefault).position
          (pts.getD (i + 1) padDefault).position = true) ∧
    ((checkCollision pts l).1 = false → (checkCollision pts l).2 = l) ∧
    ((checkCollision pts l).1 = true →
      ∃ σ : ℝ, (checkCollision pts l).2 = l.checkLandingSafety σ) := by
  unfold checkCollision
  rcases hfind : firstHitSegment pts l with _ | i
  · rw [firstHitSegment, List.findSome?_eq_none_iff] at hfind
    refine ⟨?_, fun _ => rfl, ?_⟩
    · simp only [Bool.false_eq_true, false_iff]
      rintro ⟨leg, hleg, i, hi, hseg⟩
      have hnone := hfind leg hleg
      rw [List.find?_eq_none] at hnone
      exact absurd hseg (hnone i (List.mem_range.mpr hi))
    · intro hcontra
      exact absurd hcontra (by simp)
  · refine ⟨?_, ?_, ?_⟩
    · rw [firstHitSegment] at hfind
      obtain ⟨leg, hleg, hsome⟩ := List.exists_of_findSome?_eq_some hfind
      have hmem := List.mem_range.mp (List.mem_of_find?_eq_some hsome)
      have hpred := List.find?_some hsome
      exact ⟨fun _ => ⟨leg, hleg, i, hmem, hpred⟩, fun _ => rfl⟩
    · intro hcontra
      exact absurd hcontra (by simp)
    · exact fun _ =>
        ⟨segmentSurfaceAngle (pts.getD i padDefault).position
          (pts.getD (i + 1) padDefault).position, rfl⟩

/-- A flat two-point terrain at height 10 spanning the screen. -/
noncomputable def flatTerrain : List (TerrainPoint ℝ) :=
  [⟨⟨0, 10⟩, false⟩, ⟨⟨800, 10⟩, false⟩]

/-- Witness for `check_collision_iff_and_frame`: the upright lander at
(400, 300) has both legs at height 295, below the flat terrain line at
height 10 it sits over, so the collision test reports a hit; applying
the theorem's equivalence in the other direction then forces the
returned flag to be true. -/
theorem check_collision_iff_and_frame_witness :
    (checkCollision flatTerrain (LunarLander.new 400 300)).1 = true := by
  have key := check_collision_iff_and_frame flatTerrain (LunarLander.new 400 300)
  rw [key.1]
  refine ⟨⟨400 + (-15 * Real.cos 0 - -5 * Real.sin 0),
    300 + (-15 * Real.sin 0 + -5 * Real.cos 0)⟩, ?_, 0, by norm_num [flatTerrain], ?_⟩
  · show _ ∈ LunarLander.legsPoints _
    unfold LunarLander.legsPoints
    exact List.mem_cons_self _ _
  · show pointInSegment _ (⟨0, 10⟩ : Point2 ℝ) (⟨800, 10⟩ : Point2 ℝ) = true
    unfold pointInSegment
    rw [if_neg (by norm_num [Real.cos_zero, Real.sin_zero])]
    rw [decide_eq_true_eq]
    norm_num [Real.cos_zero, Real.sin_zero]

theorem new_particles (x y : ℝ) (draws : List (ℝ × ℝ × ℝ)) :
    (Explosion.new x y draws).particles =
      draws.map fun d => Particle.new x y d.1 d.2.1 d.2.2 := rfl

theorem step_particles (e : Explosion) :
    e.step.particles = (e.particles.map Particle.step).filter Particle.isAlive := rfl

/-- Particles surviving a step are alive, and if every particle's
lifetime was below `c` before the step, it is below `c - DT` after. -/
theorem step_particles_bound {c : ℝ} {e : Explosion}
    (h : ∀ p ∈ e.particles, p.lifetime < c) :
    ∀ p ∈ e.step.particles, 0 < p.lifetime ∧ p.lifetime < c - DT := by
  intro p hp
  rw [step_particles, List.mem_filter] at hp
  obtain ⟨hmem, halive⟩ := hp
  rw [List.mem_map] at hmem
  obtain ⟨q, hq, rfl⟩ := hmem
  refine ⟨?_, ?_⟩
  · exact of_decide_eq_true halive
  · have hql : q.step.lifetime = q.lifetime - DT := rfl
    have := h q hq
    rw [hql]
    linarith

theorem iterate_step_bound {c : ℝ} {e : Explosion}
    (h : ∀ p ∈ e.particles, p.lifetime < c) (n : ℕ) :
    ∀ p ∈ (Explosion.step^[n] e).particles, p.lifetime < c - n * DT := by
  induction n with
  | zero => simpa using h
  | succ n ih =>
    rw [Function.iterate_succ_apply']
    intro p hp
    have hb := (step_particles_bound ih p hp).2
    have : ((n : ℝ) + 1) * DT = n * DT + DT := by ring
    push_cast
    linarith

/-- C7: an explosion spawned from any origin with the 100 random draws
the code performs (each lifetime drawn from [0.5, 1.5)) starts with
exactly 100 live particles whose lifetimes lie in [0.5, 1.5]; after 90
ticks the particle set is empty and `is_finished` returns true. -/
theorem explosion_lifecycle (x y : ℝ) (draws : List (ℝ × ℝ × ℝ))
    (hlen : draws.length = 100)
    (hlife : ∀ d ∈ draws, 0.5 ≤ d.2.2 ∧ d.2.2 < 1.5) :
    (Explosion.new x y draws).particles.length = 100 ∧
    (∀ p ∈ (Explosion.new x y draws).particles,
      0.5 ≤ p.lifetime ∧ p.lifetime ≤ 1.5 ∧ p.isAlive = true) ∧
    (Explosion.step^[90] (Explosion.new x y draws)).particles = [] ∧
    (Explosion.step^[90] (Explosion.new x y draws)).isFinished = true := by
  have hstart : ∀ p ∈ (Explosion.new x y draws).particles, p.lifetime < 1.5 := by
    intro p hp
    rw [new_particles, List.mem_map] at hp
    obtain ⟨d, hd, rfl⟩ := hp
    exact (hlife d hd).2
  have hempty : (Explosion.step^[90] (Explosion.new x y draws)).particles = [] := by
    rw [List.eq_nil_iff_forall_not_mem]
    intro p hp
    have hup : p.lifetime < 1.5 - (90 : ℕ) * DT := iterate_step_bound hstart 90 p hp
    have halive : 0 < p.lifetime := by
      have h89 := iterate_step_bound hstart 89
      rw [show (90 : ℕ) = 89 + 1 from rfl, Function.iterate_succ_apply'] at hp
      exact (step_particles_bound h89 p hp).1
    rw [DT] at hup
    push_cast at hup
    linarith
  refine ⟨?_, ?_, hempty, ?_⟩
  · rw [new_particles, List.length_map, hlen]
  · intro p hp
    rw [new_particles, List.mem_map] at hp
    obtain ⟨d, hd, rfl⟩ := hp
    have hd' := hlife d hd
    have hl : (Particle.new x y d.1 d.2.1 d.2.2).lifetime = d.2.2 := rfl
    rw [hl]
    refine ⟨hd'.1, by linarith [hd'.2], ?_⟩
    exact decide_eq_true (by rw [hl]; linarith [hd'.1])
  · rw [Explosion.isFinished, hempty]
    rfl

/-- Witness for `explosion_lifecycle`: the explosion at origin
(100, 100) with 100 identical draws of angle 0, speed 50, and
lifetime 1. -/
theorem explosion_lifecycle_witness :
    (Explosion.new 100 100 (List.replicate 100 ((0 : ℝ), (50 : ℝ), (1 : ℝ)))).particles.length
      = 100 ∧
    (∀ p ∈ (Explosion.new 100 100 (List.replicate 100 ((0 : ℝ), (50 : ℝ), (1 : ℝ)))).particles,
      0.5 ≤ p.lifetime ∧ p.lifetime ≤ 1.5 ∧ p.isAlive = true) ∧
    (Explosion.step^[90]
      (Explosion.new 100 100 (List.replicate 100 ((0 : ℝ), (50 : ℝ), (1 : ℝ))))).particles
      = [] ∧
    (Explosion.step^[90]
      (Explosion.new 100 100 (List.replicate 100 ((0 : ℝ), (50 : ℝ), (1 : ℝ))))).isFinished
      = true :=
  explosion_lifecycle 100 100 (List.replicate 100 ((0 : ℝ), (50 : ℝ), (1 : ℝ)))
    (List.length_replicate 100 _)
    (by
      intro d hd
      rw [List.eq_of_mem_replicate hd]
      norm_num)

theorem applyPad_length {α : Type} [Field α] (pts : List (TerrainPoint α)) (s : ℕ) :
    (applyPad pts s).length = pts.length := by
  unfold applyPad
  exact List.length_mapIdx

/-- Pointwise description of one pad-flattening pass. -/
theorem applyPad_getD {α : Type} [Field α] (pts : List (TerrainPoint α)) (s i : ℕ)
    (hi : i < pts.length) :
    (applyPad pts s).getD i padDefault =
      if s ≤ i ∧ i < s + padWidth
      then ⟨⟨(pts.getD i padDefault).position.x, (pts.getD s padDefault).position.y⟩, true⟩
      else pts.getD i padDefault := by
  unfold applyPad
  rw [List.getD_eq_getElem?_getD, List.getElem?_mapIdx, List.getElem?_eq_getElem hi,
    Option.map_some', Option.getD_some, List.getD_eq_getElem _ _ hi]

theorem mapIdx_getD {α β : Type} (f : ℕ → α → β) (l : List α) (i : ℕ) (hi : i < l.length)
    (d : β) (d' : α) :
    (l.mapIdx f).getD i d = f i (l.getD i d') := by
  rw [List.getD_eq_getElem?_getD, List.getElem?_mapIdx, List.getElem?_eq_getElem hi,
    Option.map_some', Option.getD_some, List.getD_eq_getElem _ _ hi]

theorem generateTerrain_three {α : Type} [Field α] (heights : List α) (a b c : ℕ) :
    generateTerrain heights [a, b, c] =
      applyPad (applyPad (applyPad
        (heights.mapIdx fun i y =>
          (⟨⟨(i : α) * (800 / 99), y⟩, false⟩ : TerrainPoint α)) a) b) c := rfl

/-- C8 (amended): for a terrain generated with 100 heights and three
pad start indices drawn from [5, 90), provided the three pad index
ranges `[s, s + 5)` are pairwise disjoint, each pad's 5 consecutive
points share identical y and are flagged as landing pad, and every
point not covered by a pad keeps its original height and is not
flagged; when pad ranges overlap, a later pad can overwrite part of an
earlier one with a different height, see
`terrain_pad_overlap_counterexample`. -/
theorem generate_terrain_pads {α : Type} [Field α] (heights : List α) (a b c : ℕ)
    (hlen : heights.length = 100)
    (ha90 : 5 ≤ a ∧ a < 90) (hb90 : 5 ≤ b ∧ b < 90) (hc90 : 5 ≤ c ∧ c < 90)
    (hab : a + padWidth ≤ b ∨ b + padWidth ≤ a)
    (hac : a + padWidth ≤ c ∨ c + padWidth ≤ a)
    (hbc : b + padWidth ≤ c ∨ c + padWidth ≤ b) :
    (∀ s, (s = a ∨ s = b ∨ s = c) → ∀ i j, s ≤ i → i < s + padWidth → s ≤ j →
      j < s + padWidth →
      ((generateTerrain heights [a, b, c]).getD i padDefault).position.y =
        ((generateTerrain heights [a, b, c]).getD j padDefault).position.y ∧
      ((generateTerrain heights [a, b, c]).getD i padDefault).is_landing_pad = true) ∧
    (∀ i, i < 100 → ¬(a ≤ i ∧ i < a + padWidth) → ¬(b ≤ i ∧ i < b + padWidth) →
      ¬(c ≤ i ∧ i < c + padWidth) →
      ((generateTerrain heights [a, b, c]).getD i padDefault).is_landing_pad = false ∧
      ((generateTerrain heights [a, b, c]).getD i padDefault).position.y =
        heights.getD i 0) := by
  have hpw : padWidth = 5 := rfl
  set base : List (TerrainPoint α) := heights.mapIdx fun i y =>
    (⟨⟨(i : α) * (800 / 99), y⟩, false⟩ : TerrainPoint α) with hbase
  have hLbase : base.length = 100 := by rw [hbase, List.length_mapIdx, hlen]
  set L1 : List (TerrainPoint α) := applyPad base a with hL1
  have hLL1 : L1.length = 100 := by rw [hL1, applyPad_length, hLbase]
  set L2 : List (TerrainPoint α) := applyPad L1 b with hL2
  have hLL2 : L2.length = 100 := by rw [hL2, applyPad_length, hLL1]
  have hGen : generateTerrain heights [a, b, c] = applyPad L2 c := by
    rw [generateTerrain_three, hL2, hL1, hbase]
  constructor
  · rintro s (rfl | rfl | rfl) i j hi1 hi2 hj1 hj2
    · -- pad starting at a: indices in [a, a+5) are untouched by pads b and c
      have hval : ∀ k, s ≤ k → k < s + padWidth →
          (generateTerrain heights [s, b, c]).getD k padDefault =
            ⟨⟨(base.getD k padDefault).position.x,
              (base.getD s padDefault).position.y⟩, true⟩ := by
        intro k hk1 hk2
        have hk100 : k < 100 := by omega
        rw [hGen, applyPad_getD _ _ _ (by omega),
          if_neg (by rw [hpw] at hab hac hbc hk2 ⊢; omega),
          hL2, applyPad_getD _ _ _ (by omega),
          if_neg (by rw [hpw] at hab hac hbc hk2 ⊢; omega),
          hL1, applyPad_getD _ _ _ (by omega),
          if_pos ⟨hk1, hk2⟩]
      rw [hval i hi1 hi2, hval j hj1 hj2]
      exact ⟨rfl, rfl⟩
    · -- pad starting at b: indices in [b, b+5) are untouched by pad c
      have hval : ∀ k, s ≤ k → k < s + padWidth →
          (generateTerrain heights [a, s, c]).getD k padDefault =
            ⟨⟨(L1.getD k padDefault).position.x,
              (L1.getD s padDefault).position.y⟩, true⟩ := by
        intro k hk1 hk2
        have hk100 : k < 100 := by omega
        rw [hGen, applyPad_getD _ _ _ (by omega),
          if_neg (by rw [hpw] at hab hac hbc hk2 ⊢; omega),
          hL2, applyPad_getD _ _ _ (by omega),
          if_pos ⟨hk1, hk2⟩]
      rw [hval i hi1 hi2, hval j hj1 hj2]
      exact ⟨rfl, rfl⟩
    · -- pad starting at c: flattened by the last pass
      have hval : ∀ k, s ≤ k → k < s + padWidth →
          (generateTerrain heights [a, b, s]).getD k padDefault =
            ⟨⟨(L2.getD k padDefault).position.x,
              (L2.getD s padDefault).position.y⟩, true⟩ := by
        intro k hk1 hk2
        have hk100 : k < 100 := by omega
        rw [hGen, applyPad_getD _ _ _ (by omega), if_pos ⟨hk1, hk2⟩]
      rw [hval i hi1 hi2, hval j hj1 hj2]
      exact ⟨rfl, rfl⟩
  · intro i hi hna hnb hnc
    have hbase_getD : base.getD i padDefault =
        ⟨⟨(i : α) * (800 / 99), heights.getD i 0⟩, false⟩ :=
      mapIdx_getD _ _ _ (by omega) _ _
    have hfinal : (generateTerrain heights [a, b, c]).getD i padDefault =
        base.getD i padDefault := by
      rw [hGen, applyPad_getD _ _ _ (by omega), if_neg hnc,
        hL2, applyPad_getD _ _ _ (by omega), if_neg hnb,
        hL1, applyPad_getD _ _ _ (by omega), if_neg hna]
    rw [hfinal, hbase_getD]
    exact ⟨rfl, rfl⟩

/-- A concrete choice of 100 generated heights (height 400 + i at index
i, all within the generator's [400, 500) band and pairwise distinct),
used to exercise the terrain generator over `ℚ`. -/
def qHeights : List ℚ :=
  (List.range 100).map fun i : ℕ => 400 + (i : ℚ)

/-- Witness for `generate_terrain_pads` with pads at 10, 20 and 80,
which are pairwise disjoint. -/
theorem generate_terrain_pads_witness :
    (∀ s, (s = 10 ∨ s = 20 ∨ s = 80) → ∀ i j, s ≤ i → i < s + padWidth → s ≤ j →
      j < s + padWidth →
      ((generateTerrain qHeights [10, 20, 80]).getD i padDefault).position.y =
        ((generateTerrain qHeights [10, 20, 80]).getD j padDefault).position.y ∧
      ((generateTerrain qHeights [10, 20, 80]).getD i padDefault).is_landing_pad = true) ∧
    (∀ i, i < 100 → ¬(10 ≤ i ∧ i < 10 + padWidth) → ¬(20 ≤ i ∧ i < 20 + padWidth) →
      ¬(80 ≤ i ∧ i < 80 + padWidth) →
      ((generateTerrain qHeights [10, 20, 80]).getD i padDefault).is_landing_pad = false ∧
      ((generateTerrain qHeights [10, 20, 80]).getD i padDefault).position.y =
        qHeights.getD i 0) :=
  generate_terrain_pads qHeights 10 20 80
    (by rw [qHeights, List.length_map, List.length_range])
    (by norm_num) (by norm_num) (by norm_num)
    (Or.inl (by norm_num [padWidth]))
    (Or.inl (by norm_num [padWidth]))
    (Or.inl (by norm_num [padWidth]))

/-- The base point sequence of the overlap counterexample, before any
pad is applied. -/
def ceBase : List (TerrainPoint ℚ) :=
  qHeights.mapIdx fun i y => ⟨⟨(i : ℚ) * (800 / 99), y⟩, false⟩

/-- The counterexample terrain after the first pad (start 10). -/
def ceL1 : List (TerrainPoint ℚ) := applyPad ceBase 10

/-- The counterexample terrain after the second pad (start 7), which
overlaps the first pad from the left. -/
def ceL2 : List (TerrainPoint ℚ) := applyPad ceL1 7

theorem qHeights_getD_seven : qHeights.getD 7 0 = 400 + (7 : ℚ) := by
  rw [qHeights, List.getD_eq_getElem?_getD, List.getElem?_map,
    List.getElem?_range (by norm_num : (7 : ℕ) < 100), Option.map_some', Option.getD_some]
  norm_num

theorem qHeights_getD_ten : qHeights.getD 10 0 = 400 + (10 : ℚ) := by
  rw [qHeights, List.getD_eq_getElem?_getD, List.getElem?_map,
    List.getElem?_range (by norm_num : (10 : ℕ) < 100), Option.map_some', Option.getD_some]
  norm_num

/-- C8 counterexample: with pad starts 10, 7, 80 (all legal draws from
[5, 90)) the second pad overlaps the first from the left, so the pad
that starts at index 10 ends up with two different heights among its 5
points (indices 10 and 12 differ while both are flagged as pad),
refuting the claim for arbitrary random choices. -/
theorem terrain_pad_overlap_counterexample :
    ((generateTerrain qHeights [10, 7, 80]).getD 10 padDefault).is_landing_pad = true ∧
    ((generateTerrain qHeights [10, 7, 80]).getD 12 padDefault).is_landing_pad = true ∧
    ((generateTerrain qHeights [10, 7, 80]).getD 10 padDefault).position.y ≠
      ((generateTerrain qHeights [10, 7, 80]).getD 12 padDefault).position.y := by
  have hq : qHeights.length = 100 := by
    rw [qHeights, List.length_map, List.length_range]
  have hlenB : ceBase.length = 100 := by
    rw [ceBase, List.length_mapIdx, hq]
  have hlen1 : ceL1.length = 100 := by
    rw [ceL1, applyPad_length, hlenB]
  have hlen2 : ceL2.length = 100 := by
    rw [ceL2, applyPad_length, hlen1]
  have hGen : generateTerrain qHeights [10, 7, 80] = applyPad ceL2 80 := by
    rw [generateTerrain_three, ceL2, ceL1, ceBase]
  have hb : ∀ k : ℕ, k < 100 → ceBase.getD k padDefault =
      ⟨⟨(k : ℚ) * (800 / 99), qHeights.getD k 0⟩, false⟩ := by
    intro k hk
    rw [ceBase]
    exact mapIdx_getD _ qHeights k (by rw [hq]; exact hk) padDefault 0
  have hL1_7 : ceL1.getD 7 padDefault = ceBase.getD 7 padDefault := by
    rw [ceL1, applyPad_getD _ _ _ (by rw [hlenB]; norm_num),
      if_neg (by norm_num [padWidth])]
  have hL1_12 : ceL1.getD 12 padDefault =
      ⟨⟨(ceBase.getD 12 padDefault).position.x,
        (ceBase.getD 10 padDefault).position.y⟩, true⟩ := by
    rw [ceL1, applyPad_getD _ _ _ (by rw [hlenB]; norm_num),
      if_pos (by norm_num [padWidth])]
  have hL2_10 : ceL2.getD 10 padDefault =
      ⟨⟨(ceL1.getD 10 padDefault).position.x,
        (ceL1.getD 7 padDefault).position.y⟩, true⟩ := by
    rw [ceL2, applyPad_getD _ _ _ (by rw [hlen1]; norm_num),
      if_pos (by norm_num [padWidth])]
  have hL2_12 : ceL2.getD 12 padDefault = ceL1.getD 12 padDefault := by
    rw [ceL2, applyPad_getD _ _ _ (by rw [hlen1]; norm_num),
      if_neg (by norm_num [padWidth])]
  have hG10 : (generateTerrain qHeights [10, 7, 80]).getD 10 padDefault =
      ceL2.getD 10 padDefault := by
    rw [hGen, applyPad_getD _ _ _ (by rw [hlen2]; norm_num),
      if_neg (by norm_num [padWidth])]
  have hG12 : (generateTerrain qHeights [10, 7, 80]).getD 12 padDefault =
      ceL2.getD 12 padDefault := by
    rw [hGen, applyPad_getD _ _ _ (by rw [hlen2]; norm_num),
      if_neg (by norm_num [padWidth])]
  refine ⟨?_, ?_, ?_⟩
  · rw [hG10, hL2_10]
  · rw [hG12, hL2_12, hL1_12]
  · rw [hG10, hL2_10, hG12, hL2_12, hL1_12, hL1_7, hb 7 (by norm_num),
      hb 10 (by norm_num)]
    show (400 + (7 : ℚ)) ≠ (400 + (10 : ℚ))
    norm_num

end LunarClaude
